import Mathlib

/-!
Verification of the financial-statement dashboard's ratio engine and data
fetcher (`financial_statement_dashboard.py`).

Numeric values are modelled as rationals.  A financial statement (a pandas
`DataFrame`) is a row index of line-item names together with a list of
columns, most recent first; `iloc[:, 0]` becomes `Statement.firstCol` and
`Series.get(name, default)` becomes `seriesGet`.
-/

/-- A financial statement: line-item names (`index`) and reporting-period
columns (`cols`, most recent first), mirroring the pandas `DataFrame`s
returned by `stock.financials`, `stock.balance_sheet`, `stock.cashflow`. -/
structure Statement where
  index : List String
  cols : List (List ℚ)
deriving DecidableEq

/-- Mirror of pandas `DataFrame.empty`: a frame with no rows or no columns
is empty. -/
def Statement.isEmpty (s : Statement) : Bool :=
  s.index.isEmpty || s.cols.isEmpty

/-- Mirror of `df.iloc[:, 0]`: the most recent column as a Series, i.e. the
row labels paired with the first column's values. -/
def Statement.firstCol (s : Statement) : List (String × ℚ) :=
  s.index.zip (s.cols.headD [])

/-- Mirror of pandas `Series.get(name, default)`: the value at the first
row labelled `name`, or `default` when no such row exists. -/
def seriesGet (ser : List (String × ℚ)) (name : String) (default : ℚ) : ℚ :=
  match ser.find? (fun p => p.1 == name) with
  | some p => p.2
  | none => default

/-- The `data` dict built by `fetch_financial_data` on success, restricted
to the three statements that `calculate_ratios` reads. -/
structure StatementSet where
  income_statement : Statement
  balance_sheet : Statement
  cash_flow : Statement
deriving DecidableEq

/-- Embedding of `calculate_ratios` (`financial_statement_dashboard.py`
lines 95-149): returns `none` when the balance sheet or income statement is
empty, otherwise the insertion-ordered dict of the eleven ratios, each
division guarded by a zero test on its denominator. -/
def calculate_ratios (data : StatementSet) : Option (List (String × ℚ)) :=
  if data.balance_sheet.isEmpty || data.income_statement.isEmpty then
    none
  else
    let latest_bs := data.balance_sheet.firstCol
    let latest_inc := data.income_statement.firstCol
    let _latest_cf := if data.cash_flow.isEmpty then none
                      else some data.cash_flow.firstCol
    let net_income := seriesGet latest_inc "Net Income" 0
    let revenue := seriesGet latest_inc "Total Revenue" 1
    let total_assets := seriesGet latest_bs "Total Assets" 1
    let total_equity := seriesGet latest_bs "Total Stockholder Equity" 1
    let current_assets := seriesGet latest_bs "Current Assets" 0
    let current_liabilities := seriesGet latest_bs "Current Liabilities" 1
    let cash := seriesGet latest_bs "Cash And Cash Equivalents" 0
    let inventory := seriesGet latest_bs "Inventory" 0
    let total_debt := seriesGet latest_bs "Total Debt" 0
    let _total_liabilities :=
      seriesGet latest_bs "Total Liabilities Net Minority Interest" 0
    let operating_income := seriesGet latest_inc "Operating Income" 0
    some [
      ("Net Profit Margin", if revenue ≠ 0 then net_income / revenue * 100 else 0),
      ("ROA", if total_assets ≠ 0 then net_income / total_assets * 100 else 0),
      ("ROE", if total_equity ≠ 0 then net_income / total_equity * 100 else 0),
      ("Current Ratio",
        if current_liabilities ≠ 0 then current_assets / current_liabilities else 0),
      ("Quick Ratio",
        if current_liabilities ≠ 0 then
          (current_assets - inventory) / current_liabilities else 0),
      ("Cash Ratio", if current_liabilities ≠ 0 then cash / current_liabilities else 0),
      ("Debt to Equity", if total_equity ≠ 0 then total_debt / total_equity else 0),
      ("Debt to Assets", if total_assets ≠ 0 then total_debt / total_assets else 0),
      ("Equity Multiplier", if total_equity ≠ 0 then total_assets / total_equity else 0),
      ("Asset Turnover", if total_assets ≠ 0 then revenue / total_assets else 0),
      ("Operating Margin",
        if revenue ≠ 0 then operating_income / revenue * 100 else 0)
    ]

/-- Expanded form of `calculate_ratios` on non-empty statements: the lets of
the source substituted away, for rewriting in the per-claim theorems. -/
theorem calculate_ratios_eq (data : StatementSet)
    (hbs : data.balance_sheet.isEmpty = false)
    (hinc : data.income_statement.isEmpty = false) :
    calculate_ratios data = some [
      ("Net Profit Margin",
        if seriesGet data.income_statement.firstCol "Total Revenue" 1 ≠ 0 then
          seriesGet data.income_statement.firstCol "Net Income" 0 /
            seriesGet data.income_statement.firstCol "Total Revenue" 1 * 100
        else 0),
      ("ROA",
        if seriesGet data.balance_sheet.firstCol "Total Assets" 1 ≠ 0 then
          seriesGet data.income_statement.firstCol "Net Income" 0 /
            seriesGet data.balance_sheet.firstCol "Total Assets" 1 * 100
        else 0),
      ("ROE",
        if seriesGet data.balance_sheet.firstCol "Total Stockholder Equity" 1 ≠ 0 then
          seriesGet data.income_statement.firstCol "Net Income" 0 /
            seriesGet data.balance_sheet.firstCol "Total Stockholder Equity" 1 * 100
        else 0),
      ("Current Ratio",
        if seriesGet data.balance_sheet.firstCol "Current Liabilities" 1 ≠ 0 then
          seriesGet data.balance_sheet.firstCol "Current Assets" 0 /
            seriesGet data.balance_sheet.firstCol "Current Liabilities" 1
        else 0),
      ("Quick Ratio",
        if seriesGet data.balance_sheet.firstCol "Current Liabilities" 1 ≠ 0 then
          (seriesGet data.balance_sheet.firstCol "Current Assets" 0 -
              seriesGet data.balance_sheet.firstCol "Inventory" 0) /
            seriesGet data.balance_sheet.firstCol "Current Liabilities" 1
        else 0),
      ("Cash Ratio",
        if seriesGet data.balance_sheet.firstCol "Current Liabilities" 1 ≠ 0 then
          seriesGet data.balance_sheet.firstCol "Cash And Cash Equivalents" 0 /
            seriesGet data.balance_sheet.firstCol "Current Liabilities" 1
        else 0),
      ("Debt to Equity",
        if seriesGet data.balance_sheet.firstCol "Total Stockholder Equity" 1 ≠ 0 then
          seriesGet data.balance_sheet.firstCol "Total Debt" 0 /
            seriesGet data.balance_sheet.firstCol "Total Stockholder Equity" 1
        else 0),
      ("Debt to Assets",
        if seriesGet data.balance_sheet.firstCol "Total Assets" 1 ≠ 0 then
          seriesGet data.balance_sheet.firstCol "Total Debt" 0 /
            seriesGet data.balance_sheet.firstCol "Total Assets" 1
        else 0),
      ("Equity Multiplier",
        if seriesGet data.balance_sheet.firstCol "Total Stockholder Equity" 1 ≠ 0 then
          seriesGet data.balance_sheet.firstCol "Total Assets" 1 /
            seriesGet data.balance_sheet.firstCol "Total Stockholder Equity" 1
        else 0),
      ("Asset Turnover",
        if seriesGet data.balance_sheet.firstCol "Total Assets" 1 ≠ 0 then
          seriesGet data.income_statement.firstCol "Total Revenue" 1 /
            seriesGet data.balance_sheet.firstCol "Total Assets" 1
        else 0),
      ("Operating Margin",
        if seriesGet data.income_statement.firstCol "Total Revenue" 1 ≠ 0 then
          seriesGet data.income_statement.firstCol "Operating Income" 0 /
            seriesGet data.income_statement.firstCol "Total Revenue" 1 * 100
        else 0)
    ] := by
  have hg : (data.balance_sheet.isEmpty || data.income_statement.isEmpty) = false := by
    rw [hbs, hinc]; rfl
  unfold calculate_ratios
  rw [hg]
  rfl

/-- Sample income statement used by witnesses: one reporting period with
Total Revenue 1,000,000,000, Net Income 100,000,000, Operating Income
250,000,000. -/
def sampleInc : Statement :=
  ⟨["Net Income", "Total Revenue", "Operating Income"],
    [[100000000, 1000000000, 250000000]]⟩

/-- Sample balance sheet used by witnesses: one reporting period with
Current Assets 500, Inventory 200, Current Liabilities 250, and no
"Total Stockholder Equity" row. -/
def sampleBS : Statement :=
  ⟨["Total Assets", "Current Assets", "Inventory", "Current Liabilities",
    "Cash And Cash Equivalents", "Total Debt"],
    [[2000000000, 500, 200, 250, 100, 400]]⟩

/-- Sample cash-flow statement used by witnesses. -/
def sampleCF : Statement :=
  ⟨["Operating Cash Flow"], [[300000000]]⟩

/-- Sample statement set used by witnesses. -/
def sampleData : StatementSet := ⟨sampleInc, sampleBS, sampleCF⟩

/-- C4: whenever the most recent income-statement column has
Total Revenue = 1,000,000,000 and Net Income = 100,000,000 (and the
statements are non-empty so that ratios are produced), `calculate_ratios`
reports a Net Profit Margin of exactly 10 (percent), i.e.
NetIncome / Revenue * 100. -/
theorem net_profit_margin_ten_percent (data : StatementSet)
    (hbs : data.balance_sheet.isEmpty = false)
    (hinc : data.income_statement.isEmpty = false)
    (hrev : seriesGet data.income_statement.firstCol "Total Revenue" 1 = 1000000000)
    (hni : seriesGet data.income_statement.firstCol "Net Income" 0 = 100000000) :
    ∃ rs, calculate_ratios data = some rs ∧
      rs.lookup "Net Profit Margin" = some 10 := by
  refine ⟨_, calculate_ratios_eq data hbs hinc, ?_⟩
  simp only [List.lookup, hrev, hni]
  norm_num

/-- Witness for C4 at `sampleData`. -/
theorem net_profit_margin_ten_percent_witness :
    sampleData.balance_sheet.isEmpty = false ∧
    sampleData.income_statement.isEmpty = false ∧
    seriesGet sampleData.income_statement.firstCol "Total Revenue" 1 = 1000000000 ∧
    seriesGet sampleData.income_statement.firstCol "Net Income" 0 = 100000000 ∧
    ∃ rs, calculate_ratios sampleData = some rs ∧
      rs.lookup "Net Profit Margin" = some 10 :=
  ⟨by decide, by decide, by decide, by decide,
    net_profit_margin_ten_percent sampleData (by decide) (by decide)
      (by decide) (by decide)⟩

/-- C5: whenever the most recent balance-sheet column has
Current Assets = 500, Inventory = 200 and Current Liabilities = 250 (and
the statements are non-empty so that ratios are produced),
`calculate_ratios` reports Current Ratio = 2 and Quick Ratio = 6/5
(i.e. 1.20). -/
theorem current_and_quick_ratio (data : StatementSet)
    (hbs : data.balance_sheet.isEmpty = false)
    (hinc : data.income_statement.isEmpty = false)
    (hca : seriesGet data.balance_sheet.firstCol "Current Assets" 0 = 500)
    (hinv : seriesGet data.balance_sheet.firstCol "Inventory" 0 = 200)
    (hcl : seriesGet data.balance_sheet.firstCol "Current Liabilities" 1 = 250) :
    ∃ rs, calculate_ratios data = some rs ∧
      rs.lookup "Current Ratio" = some 2 ∧
      rs.lookup "Quick Ratio" = some (6 / 5) := by
  refine ⟨_, calculate_ratios_eq data hbs hinc, ?_, ?_⟩ <;>
    · simp only [List.lookup, hca, hinv, hcl]
      norm_num
      rfl

/-- Witness for C5 at `sampleData`. -/
theorem current_and_quick_ratio_witness :
    sampleData.balance_sheet.isEmpty = false ∧
    sampleData.income_statement.isEmpty = false ∧
    seriesGet sampleData.balance_sheet.firstCol "Current Assets" 0 = 500 ∧
    seriesGet sampleData.balance_sheet.firstCol "Inventory" 0 = 200 ∧
    seriesGet sampleData.balance_sheet.firstCol "Current Liabilities" 1 = 250 ∧
    ∃ rs, calculate_ratios sampleData = some rs ∧
      rs.lookup "Current Ratio" = some 2 ∧
      rs.lookup "Quick Ratio" = some (6 / 5) :=
  ⟨by decide, by decide, by decide, by decide, by decide,
    current_and_quick_ratio sampleData (by decide) (by decide)
      (by decide) (by decide) (by decide)⟩

/-- C3: when the income statement or the balance sheet is empty,
`calculate_ratios` returns `none`, whatever the other statements
contain. -/
theorem empty_statement_no_ratios (data : StatementSet)
    (h : data.income_statement.isEmpty = true ∨ data.balance_sheet.isEmpty = true) :
    calculate_ratios data = none := by
  unfold calculate_ratios
  rcases h with h | h <;> rw [h] <;> simp

/-- Witness for C3: an empty balance sheet together with the sample income
statement yields no ratios. -/
theorem empty_statement_no_ratios_witness :
    ((StatementSet.mk sampleInc ⟨[], []⟩ sampleCF).income_statement.isEmpty = true ∨
      (StatementSet.mk sampleInc ⟨[], []⟩ sampleCF).balance_sheet.isEmpty = true) ∧
    calculate_ratios (StatementSet.mk sampleInc ⟨[], []⟩ sampleCF) = none :=
  ⟨by decide,
    empty_statement_no_ratios (StatementSet.mk sampleInc ⟨[], []⟩ sampleCF)
      (by decide)⟩

/-- C9: `calculate_ratios` never reads the cash-flow statement: two
statement sets agreeing on income statement and balance sheet but with
arbitrary cash-flow statements produce identical results. -/
theorem ratios_ignore_cash_flow (inc bs cf1 cf2 : Statement) :
    calculate_ratios ⟨inc, bs, cf1⟩ = calculate_ratios ⟨inc, bs, cf2⟩ := rfl

/-- C10: whenever `calculate_ratios` returns a result, its keys are exactly
the eleven ratio names, in insertion order. -/
theorem ratios_keys_exact (data : StatementSet) (rs : List (String × ℚ))
    (h : calculate_ratios data = some rs) :
    rs.map Prod.fst =
      ["Net Profit Margin", "ROA", "ROE", "Current Ratio", "Quick Ratio",
       "Cash Ratio", "Debt to Equity", "Debt to Assets", "Equity Multiplier",
       "Asset Turnover", "Operating Margin"] := by
  unfold calculate_ratios at h
  split at h
  · exact absurd h (by simp)
  · injection h with h
    subst h
    rfl

/-- Witness for C10 at `sampleData`. -/
theorem ratios_keys_exact_witness :
    ∃ rs, calculate_ratios sampleData = some rs ∧
      rs.map Prod.fst =
        ["Net Profit Margin", "ROA", "ROE", "Current Ratio", "Quick Ratio",
         "Cash Ratio", "Debt to Equity", "Debt to Assets", "Equity Multiplier",
         "Asset Turnover", "Operating Margin"] := by
  refine ⟨_, rfl, ratios_keys_exact sampleData _ rfl⟩

/-- Income statement with zero Total Revenue, used by the C2 witness. -/
def zeroRevInc : Statement := ⟨["Net Income", "Total Revenue"], [[50, 0]]⟩

/-- Statement set with zero Total Revenue, used by the C2 witness. -/
def zeroRevData : StatementSet := ⟨zeroRevInc, sampleBS, sampleCF⟩

/-- C1: on non-empty statements, a line item absent from the most recent
column is replaced by its fixed default — 1 when it serves as a
denominator, 0 when it serves only as a numerator.  In particular, when
"Total Stockholder Equity" is absent, ROE, Debt to Equity and Equity
Multiplier are computed with denominator 1 and are defined outputs; and
with an absent numerator (Total Debt, Net Income) the 0 default shows up
in the same formulas. -/
theorem missing_line_item_defaults (data : StatementSet)
    (hbs : data.balance_sheet.isEmpty = false)
    (hinc : data.income_statement.isEmpty = false)
    (heq : data.balance_sheet.firstCol.find?
        (fun p => p.1 == "Total Stockholder Equity") = none) :
    ∃ rs, calculate_ratios data = some rs ∧
      rs.lookup "ROE" =
        some (seriesGet data.income_statement.firstCol "Net Income" 0 / 1 * 100) ∧
      rs.lookup "Debt to Equity" =
        some (seriesGet data.balance_sheet.firstCol "Total Debt" 0 / 1) ∧
      rs.lookup "Equity Multiplier" =
        some (seriesGet data.balance_sheet.firstCol "Total Assets" 1 / 1) ∧
      (data.balance_sheet.firstCol.find? (fun p => p.1 == "Total Debt") = none →
        rs.lookup "Debt to Equity" = some (0 / 1)) ∧
      (data.income_statement.firstCol.find? (fun p => p.1 == "Net Income") = none →
        rs.lookup "ROE" = some (0 / 1 * 100)) := by
  have he : seriesGet data.balance_sheet.firstCol "Total Stockholder Equity" 1 = 1 := by
    simp [seriesGet, heq]
  refine ⟨_, calculate_ratios_eq data hbs hinc, ?_, ?_, ?_, ?_, ?_⟩
  · simp [List.lookup, he]
  · simp [List.lookup, he]
  · simp [List.lookup, he]
  · intro hdebt
    have hd : seriesGet data.balance_sheet.firstCol "Total Debt" 0 = 0 := by
      simp [seriesGet, hdebt]
    simp [List.lookup, he, hd]
  · intro hni
    have hn : seriesGet data.income_statement.firstCol "Net Income" 0 = 0 := by
      simp [seriesGet, hni]
    simp [List.lookup, he, hn]

/-- Witness for C1 at `sampleData`, whose balance sheet has no
"Total Stockholder Equity" row. -/
theorem missing_line_item_defaults_witness :
    sampleData.balance_sheet.isEmpty = false ∧
    sampleData.income_statement.isEmpty = false ∧
    sampleData.balance_sheet.firstCol.find?
        (fun p => p.1 == "Total Stockholder Equity") = none ∧
    ∃ rs, calculate_ratios sampleData = some rs ∧
      rs.lookup "ROE" =
        some (seriesGet sampleData.income_statement.firstCol "Net Income" 0 / 1 * 100) ∧
      rs.lookup "Debt to Equity" =
        some (seriesGet sampleData.balance_sheet.firstCol "Total Debt" 0 / 1) ∧
      rs.lookup "Equity Multiplier" =
        some (seriesGet sampleData.balance_sheet.firstCol "Total Assets" 1 / 1) ∧
      (sampleData.balance_sheet.firstCol.find? (fun p => p.1 == "Total Debt") = none →
        rs.lookup "Debt to Equity" = some (0 / 1)) ∧
      (sampleData.income_statement.firstCol.find? (fun p => p.1 == "Net Income") = none →
        rs.lookup "ROE" = some (0 / 1 * 100)) :=
  ⟨by decide, by decide, by decide,
    missing_line_item_defaults sampleData (by decide) (by decide) (by decide)⟩

/-- C2: on non-empty statements every ratio whose denominator line-item
value is zero is assigned the value 0 instead of being divided: zero
Total Revenue zeroes Net Profit Margin and Operating Margin, zero Total
Assets zeroes ROA, Debt to Assets and Asset Turnover, zero equity zeroes
ROE, Debt to Equity and Equity Multiplier, and zero Current Liabilities
zeroes the three liquidity ratios. -/
theorem zero_denominator_yields_zero (data : StatementSet)
    (hbs : data.balance_sheet.isEmpty = false)
    (hinc : data.income_statement.isEmpty = false) :
    ∃ rs, calculate_ratios data = some rs ∧
      (seriesGet data.income_statement.firstCol "Total Revenue" 1 = 0 →
        rs.lookup "Net Profit Margin" = some 0 ∧
        rs.lookup "Operating Margin" = some 0) ∧
      (seriesGet data.balance_sheet.firstCol "Total Assets" 1 = 0 →
        rs.lookup "ROA" = some 0 ∧
        rs.lookup "Debt to Assets" = some 0 ∧
        rs.lookup "Asset Turnover" = some 0) ∧
      (seriesGet data.balance_sheet.firstCol "Total Stockholder Equity" 1 = 0 →
        rs.lookup "ROE" = some 0 ∧
        rs.lookup "Debt to Equity" = some 0 ∧
        rs.lookup "Equity Multiplier" = some 0) ∧
      (seriesGet data.balance_sheet.firstCol "Current Liabilities" 1 = 0 →
        rs.lookup "Current Ratio" = some 0 ∧
        rs.lookup "Quick Ratio" = some 0 ∧
        rs.lookup "Cash Ratio" = some 0) := by
  refine ⟨_, calculate_ratios_eq data hbs hinc, ?_, ?_, ?_, ?_⟩ <;>
    · intro h
      simp [List.lookup, h]

/-- Witness for C2 at `zeroRevData`, whose income statement carries a zero
Total Revenue. -/
theorem zero_denominator_yields_zero_witness :
    zeroRevData.balance_sheet.isEmpty = false ∧
    zeroRevData.income_statement.isEmpty = false ∧
    seriesGet zeroRevData.income_statement.firstCol "Total Revenue" 1 = 0 ∧
    ∃ rs, calculate_ratios zeroRevData = some rs ∧
      (seriesGet zeroRevData.income_statement.firstCol "Total Revenue" 1 = 0 →
        rs.lookup "Net Profit Margin" = some 0 ∧
        rs.lookup "Operating Margin" = some 0) ∧
      (seriesGet zeroRevData.balance_sheet.firstCol "Total Assets" 1 = 0 →
        rs.lookup "ROA" = some 0 ∧
        rs.lookup "Debt to Assets" = some 0 ∧
        rs.lookup "Asset Turnover" = some 0) ∧
      (seriesGet zeroRevData.balance_sheet.firstCol "Total Stockholder Equity" 1 = 0 →
        rs.lookup "ROE" = some 0 ∧
        rs.lookup "Debt to Equity" = some 0 ∧
        rs.lookup "Equity Multiplier" = some 0) ∧
      (seriesGet zeroRevData.balance_sheet.firstCol "Current Liabilities" 1 = 0 →
        rs.lookup "Current Ratio" = some 0 ∧
        rs.lookup "Quick Ratio" = some 0 ∧
        rs.lookup "Cash Ratio" = some 0) :=
  ⟨by decide, by decide, by decide,
    zero_denominator_yields_zero zeroRevData (by decide) (by decide)⟩

/-- Company metadata read from the provider's `info` dict, restricted to
the keys the dashboard displays; each is optional because the dict may
lack it. -/
structure CompanyInfo where
  longName : Option String
  sector : Option String
  industry : Option String
  marketCap : Option ℚ
  currentPrice : Option ℚ
deriving DecidableEq

/-- The dict returned by `fetch_financial_data`: either
`{'info':…, 'income_statement':…, 'balance_sheet':…, 'cash_flow':…,
'success': True}` or `{'success': False, 'error': str(e)}`. -/
inductive FetchOutcome where
  | success (info : CompanyInfo)
      (income_statement balance_sheet cash_flow : Statement)
  | failure (error : String)
deriving DecidableEq

/-- Embedding of `fetch_financial_data` (`financial_statement_dashboard.py`
lines 74-92): the body of the `try` block — the provider calls for `info`,
`financials`, `balance_sheet`, `cashflow` — is modelled as a single
`Except` value: either the four pieces of data or the message of the
exception the provider raised.  The function wraps the success in a
success-tagged record and any exception in a failure-tagged record. -/
def fetch_financial_data
    (provider : Except String (CompanyInfo × Statement × Statement × Statement)) :
    FetchOutcome :=
  match provider with
  | Except.ok (info, inc, bs, cf) => FetchOutcome.success info inc bs cf
  | Except.error e => FetchOutcome.failure e

/-- C6: `fetch_financial_data` is total over provider behaviours — every
provider exception becomes a failure record carrying the provider's
message verbatim, and every provider success becomes a success record
carrying the three statements plus metadata; no exception propagates. -/
theorem fetch_never_raises
    (provider : Except String (CompanyInfo × Statement × Statement × Statement)) :
    (∃ e, provider = Except.error e ∧
        fetch_financial_data provider = FetchOutcome.failure e) ∨
    (∃ info inc bs cf, provider = Except.ok (info, inc, bs, cf) ∧
        fetch_financial_data provider = FetchOutcome.success info inc bs cf) := by
  cases provider with
  | error e => exact Or.inl ⟨e, rfl, rfl⟩
  | ok v =>
    obtain ⟨info, inc, bs, cf⟩ := v
    exact Or.inr ⟨info, inc, bs, cf, rfl, rfl⟩

/-- Embedding of the peer-comparison loop (`financial_statement_dashboard.py`
lines 558-561): for each peer in order, fetch its data (modelled as a
function from ticker to outcome); when the fetch succeeds its ratios are
recorded under the peer's ticker, when it fails the peer is skipped. -/
def peerRatios (remote : String → FetchOutcome) :
    List String → List (String × Option (List (String × ℚ)))
  | [] => []
  | peer :: rest =>
    match remote peer with
    | FetchOutcome.success _ inc bs cf =>
        (peer, calculate_ratios ⟨inc, bs, cf⟩) :: peerRatios remote rest
    | FetchOutcome.failure _ => peerRatios remote rest

/-- Failed peers never contribute an entry to the comparison map, over any
peer list. -/
theorem peerRatios_lookup_of_failure (remote : String → FetchOutcome)
    (peers : List String) (peer : String) (e : String)
    (hfail : remote peer = FetchOutcome.failure e) :
    (peerRatios remote peers).lookup peer = none := by
  induction peers with
  | nil => rfl
  | cons q rest ih =>
    by_cases hpq : peer = q
    · subst hpq
      rw [peerRatios, hfail]
      exact ih
    · rw [peerRatios]
      cases hq : remote q with
      | success info inc bs cf =>
        have : (peer == q) = false := beq_eq_false_iff_ne.mpr hpq
        simp only [List.lookup, this]
        exact ih
      | failure e2 => exact ih

/-- Successful peers always contribute their ratios to the comparison
map. -/
theorem peerRatios_lookup_of_success (remote : String → FetchOutcome)
    (peers : List String) (peer : String) (info : CompanyInfo)
    (inc bs cf : Statement) (hmem : peer ∈ peers)
    (hok : remote peer = FetchOutcome.success info inc bs cf) :
    (peerRatios remote peers).lookup peer =
      some (calculate_ratios ⟨inc, bs, cf⟩) := by
  induction peers with
  | nil => cases hmem
  | cons q rest ih =>
    by_cases hpq : peer = q
    · subst hpq
      rw [peerRatios, hok]
      simp [List.lookup]
    · have hmem' : peer ∈ rest := by
        cases hmem with
        | head => exact absurd rfl hpq
        | tail _ h => exact h
      rw [peerRatios]
      cases hq : remote q with
      | success info2 inc2 bs2 cf2 =>
        have : (peer == q) = false := beq_eq_false_iff_ne.mpr hpq
        simp only [List.lookup, this]
        exact ih hmem'
      | failure e2 => exact ih hmem'

/-- C7: in the peer-comparison loop, a peer whose fetch fails is omitted
from the comparison map — no entry is recorded for it and no error is
surfaced — while a peer whose fetch succeeds is recorded with its computed
ratios. -/
theorem peer_failures_silently_skipped (remote : String → FetchOutcome)
    (peers : List String) (peer : String) (hmem : peer ∈ peers) :
    (∀ e, remote peer = FetchOutcome.failure e →
      (peerRatios remote peers).lookup peer = none) ∧
    (∀ info inc bs cf, remote peer = FetchOutcome.success info inc bs cf →
      (peerRatios remote peers).lookup peer =
        some (calculate_ratios ⟨inc, bs, cf⟩)) :=
  ⟨fun e he => peerRatios_lookup_of_failure remote peers peer e he,
   fun info inc bs cf hok =>
     peerRatios_lookup_of_success remote peers peer info inc bs cf hmem hok⟩

/-- Sample metadata record used by witnesses. -/
def sampleInfo : CompanyInfo :=
  ⟨some "Sample Corp", some "Technology", some "Hardware", some 3000000000,
    some 150⟩

/-- A concrete remote fetch used by witnesses: fails on ticker "BAD",
succeeds with the sample statements otherwise. -/
def sampleRemote (ticker : String) : FetchOutcome :=
  if ticker == "BAD" then FetchOutcome.failure "ticker not found"
  else FetchOutcome.success sampleInfo sampleInc sampleBS sampleCF

/-- Witness for C7 with peers ["BAD", "OK"]: the failing peer is absent
from the map and the succeeding peer is present. -/
theorem peer_failures_silently_skipped_witness :
    ("BAD" ∈ ["BAD", "OK"]) ∧
    (∀ e, sampleRemote "BAD" = FetchOutcome.failure e →
      (peerRatios sampleRemote ["BAD", "OK"]).lookup "BAD" = none) ∧
    (∀ info inc bs cf,
      sampleRemote "BAD" = FetchOutcome.success info inc bs cf →
      (peerRatios sampleRemote ["BAD", "OK"]).lookup "BAD" =
        some (calculate_ratios ⟨inc, bs, cf⟩)) :=
  ⟨by decide,
    (peer_failures_silently_skipped sampleRemote ["BAD", "OK"] "BAD"
      (by decide)).1,
    (peer_failures_silently_skipped sampleRemote ["BAD", "OK"] "BAD"
      (by decide)).2⟩

/-- Modelled from the spec: the caching of `fetch_financial_data` is
supplied by the dashboard framework's `@st.cache_data(ttl=3600)` decorator,
whose implementation is not part of this repository.  Per the spec, results
are cached keyed by ticker for 3600 seconds.  The cache state is the list
of entries (ticker, time stored, value) together with a count of remote
calls issued so far. -/
structure CacheState where
  entries : List (String × Nat × FetchOutcome)
  remoteCalls : Nat
deriving DecidableEq

/-- Modelled from the spec: look up a ticker in the cache at time `now`;
an entry is valid while fewer than 3600 seconds have passed since it was
stored. -/
def cacheLookup (entries : List (String × Nat × FetchOutcome))
    (ticker : String) (now : Nat) : Option FetchOutcome :=
  match entries.find? (fun e => e.1 == ticker && now < e.2.1 + 3600) with
  | some e => some e.2.2
  | none => none

/-- Modelled from the spec: the cached fetch boundary.  A valid cache entry
is returned as is; otherwise the remote provider is called (incrementing
the remote-call count) and the result is stored keyed by the ticker. -/
def cachedFetch (remote : String → FetchOutcome) (s : CacheState)
    (now : Nat) (ticker : String) : FetchOutcome × CacheState :=
  match cacheLookup s.entries ticker now with
  | some v => (v, s)
  | none =>
    let v := remote ticker
    (v, ⟨(ticker, now, v) :: s.entries, s.remoteCalls + 1⟩)

/-- C8: after a successful first fetch of a ticker (a cache miss that
issues one remote call), any second fetch of the same ticker within 3600
seconds returns the same value and leaves the cache state — in particular
the remote-call count — unchanged: no second remote call is issued. -/
theorem cached_fetch_no_second_remote_call (remote : String → FetchOutcome)
    (s0 : CacheState) (t1 t2 : Nat) (ticker : String) (info : CompanyInfo)
    (inc bs cf : Statement)
    (hmiss : cacheLookup s0.entries ticker t1 = none)
    (hok : remote ticker = FetchOutcome.success info inc bs cf)
    (h12 : t1 ≤ t2) (hwin : t2 < t1 + 3600) :
    ∃ s1, cachedFetch remote s0 t1 ticker =
        (FetchOutcome.success info inc bs cf, s1) ∧
      s1.remoteCalls = s0.remoteCalls + 1 ∧
      cachedFetch remote s1 t2 ticker =
        (FetchOutcome.success info inc bs cf, s1) := by
  refine ⟨⟨(ticker, t1, remote ticker) :: s0.entries, s0.remoteCalls + 1⟩,
    ?_, rfl, ?_⟩
  · rw [cachedFetch, hmiss, hok]
  · have hvalid : (ticker == ticker && decide (t2 < t1 + 3600)) = true := by
      simp [hwin]
    rw [cachedFetch]
    simp only [cacheLookup, List.find?, hvalid]
    rw [hok]
  
/-- Witness for C8: an empty cache, first call at time 0, second call at
time 1000. -/
theorem cached_fetch_no_second_remote_call_witness :
    cacheLookup (CacheState.mk [] 0).entries "AAPL" 0 = none ∧
    sampleRemote "AAPL" =
      FetchOutcome.success sampleInfo sampleInc sampleBS sampleCF ∧
    (0 : Nat) ≤ 1000 ∧ (1000 : Nat) < 0 + 3600 ∧
    ∃ s1, cachedFetch sampleRemote (CacheState.mk [] 0) 0 "AAPL" =
        (FetchOutcome.success sampleInfo sampleInc sampleBS sampleCF, s1) ∧
      s1.remoteCalls = (CacheState.mk [] 0).remoteCalls + 1 ∧
      cachedFetch sampleRemote s1 1000 "AAPL" =
        (FetchOutcome.success sampleInfo sampleInc sampleBS sampleCF, s1) :=
  ⟨by decide, by decide, by decide, by decide,
    cached_fetch_no_second_remote_call sampleRemote (CacheState.mk [] 0)
      0 1000 "AAPL" sampleInfo sampleInc sampleBS sampleCF
      (by decide) (by decide) (by decide) (by decide)⟩
